import Mathlib

/-!
# Verification of the py-alarm-sink alarm reconciliation module

A shallow embedding of `src/packages/py-alarm-sink/python/alarm_sink/alarm_sink.py`:
the `PerceivedSeverity` enum, the `AlarmId` and `Alarm` value classes with their
property getters and setters, and the `AlarmSink.submit_alarm` / `purge_alarm`
operations against the NCS alarm list, modelled as an association list keyed by
the four alarm keys.  The `maagic` store accesses are modelled field by field;
a transaction that returns before `t_write.apply()` leaves the store unchanged.
Python-specific evaluation rules that the source relies on (truthiness of
`x or ''`, `None == b`, `int == EnumMember`) are embedded as explicit helper
functions so that each comparison in the source has a named counterpart here.
-/

namespace AlarmSink

/-- The `PerceivedSeverity` enum of the source (values 1..6); `CLEARED` is
documented "internal use, do not set manually". -/
inductive PerceivedSeverity where
  | CLEARED
  | INDETERMINATE
  | MINOR
  | WARNING
  | MAJOR
  | CRITICAL
deriving DecidableEq, Repr

/-- The numeric value of each enum member (`PerceivedSeverity.X.value` in
Python): `CLEARED = 1`, ..., `CRITICAL = 6`. -/
def PerceivedSeverity.value : PerceivedSeverity → Nat
  | .CLEARED => 1
  | .INDETERMINATE => 2
  | .MINOR => 3
  | .WARNING => 4
  | .MAJOR => 5
  | .CRITICAL => 6

/-- A Python runtime value as the source's `==` / `!=` comparisons see it:
either a plain `int` or a member of the `PerceivedSeverity` enum.  The class
derives from `Enum`, not `IntEnum`, so a member never compares equal to its
underlying integer. -/
inductive PyVal where
  | int : Nat → PyVal
  | enumMember : PerceivedSeverity → PyVal
deriving DecidableEq, Repr

/-- Python `==` on `PyVal`: `int == int` and member `==` member compare the
payloads; `int == EnumMember` is always `False` (default `Enum.__eq__`). -/
def pyEq : PyVal → PyVal → Bool
  | .int a, .int b => a == b
  | .enumMember a, .enumMember b => a == b
  | _, _ => false

/-- Python `x == y` where `x` is an optional bool read from a maagic leaf
(`None` when the leaf is unset): `None == b` is `False`. -/
def pyEqOptBool : Option Bool → Bool → Bool
  | none, _ => false
  | some a, b => a == b

/-- Python `x == y` where `x` is an optional string read from a maagic leaf:
`None == s` is `False`. -/
def pyEqOptStr : Option String → String → Bool
  | none, _ => false
  | some a, b => a == b

/-- Python `s or ''` on an optional string: `None` and the empty string are
falsy, so both normalize to `''`; any other string is returned as is. -/
def pyOrEmpty : Option String → String
  | none => ""
  | some s => if s.isEmpty then "" else s

/-- Python truthiness of an optional list (`if alarm.related_alarms:`):
`None` and `[]` are falsy. -/
def pyTruthyList {α : Type} : Option (List α) → Bool
  | none => false
  | some l => !l.isEmpty

/-- Python `x or y` on an optional string (used for the `timestamp`
constructor default: `timestamp or datetime.datetime.now().isoformat()`). -/
def pyOrStr : Option String → String → String
  | none, y => y
  | some s, y => if s.isEmpty then y else s

/-- The `AlarmId` namedtuple: the four keys of an alarm list entry.
`specific_problem` is optional (`None` models Python `None`). -/
structure AlarmId where
  device : String
  managed_object : String
  type : String
  specific_problem : Option String
deriving DecidableEq, Repr

/-- The `Alarm` class: identity fields copied from the `AlarmId`, the private
`_severity` and `_alarm_text` attributes behind the properties, the timestamp
and the optional correlation lists. -/
structure Alarm where
  device : String
  managed_object : String
  type : String
  specific_problem : Option String
  _severity : PerceivedSeverity
  _alarm_text : String
  timestamp : String
  impacted_objects : Option (List String)
  related_alarms : Option (List AlarmId)
  root_cause_objects : Option (List String)
deriving DecidableEq, Repr

/-- `Alarm.__init__`: copies the four identity fields out of `alarm_id` and
assigns `self._severity = severity` and `self._alarm_text = alarm_text`
directly (NOT through the `severity` / `alarm_text` property setters, so no
validation or truncation happens here).  `timestamp or now` resolves the
default timestamp; `now` stands for `datetime.datetime.now().isoformat()`. -/
def Alarm.init (alarm_id : AlarmId) (severity : PerceivedSeverity)
    (alarm_text : String) (timestamp : Option String) (now : String)
    (impacted_objects : Option (List String))
    (related_alarms : Option (List AlarmId))
    (root_cause_objects : Option (List String)) : Alarm :=
  { device := alarm_id.device
    managed_object := alarm_id.managed_object
    type := alarm_id.type
    specific_problem := alarm_id.specific_problem
    _severity := severity
    _alarm_text := alarm_text
    timestamp := pyOrStr timestamp now
    impacted_objects := impacted_objects
    related_alarms := related_alarms
    root_cause_objects := root_cause_objects }

/-- The `cleared` property getter: `self._severity == PerceivedSeverity.CLEARED`. -/
def Alarm.cleared (a : Alarm) : Bool :=
  a._severity == PerceivedSeverity.CLEARED

/-- The `cleared` property setter: `if value: self._severity = CLEARED`
(assigning a falsy value does nothing). -/
def Alarm.setCleared (a : Alarm) (value : Bool) : Alarm :=
  if value then { a with _severity := PerceivedSeverity.CLEARED } else a

/-- The `severity` property getter. -/
def Alarm.severity (a : Alarm) : PerceivedSeverity :=
  a._severity

/-- The `severity` property setter: raises `ValueError` when the new value is
`CLEARED`, otherwise stores it.  The raising path returns `Except.error`; the
object is only mutated on the `Except.ok` path. -/
def Alarm.setSeverity (a : Alarm) (value : PerceivedSeverity) :
    Except String Alarm :=
  if value == PerceivedSeverity.CLEARED then
    Except.error "ValueError: Use Alarm.cleared property to clear the alarm"
  else
    Except.ok { a with _severity := value }

/-- The `alarm_text` property getter. -/
def Alarm.alarm_text (a : Alarm) : String :=
  a._alarm_text

/-- The truncation marker appended by the `alarm_text` setter (15 characters). -/
def truncationMarker : String := " .. [truncated]"

/-- The `alarm_text` property setter: text longer than 1024 characters is cut
to `1024 - 15` characters and the truncation marker is appended; shorter text
is stored unchanged. -/
def Alarm.setAlarmText (a : Alarm) (value : String) : Alarm :=
  let max_length : Nat := 1024
  if value.length > max_length then
    { a with _alarm_text :=
        String.mk (value.toList.take (max_length - truncationMarker.length))
          ++ truncationMarker }
  else
    { a with _alarm_text := value }

/-- The `ncs_severity` property: the numeric value of the severity enum. -/
def Alarm.ncs_severity (a : Alarm) : Nat :=
  a.severity.value

/-! ## The alarm list store

`root.al__alarms.alarm_list.alarm` is a maagic list keyed by
`(device, type, managed-object, specific-problem)`; it is modelled as an
association list.  A leaf that has never been written reads as `None`
(`Option.none` here); `status-change` is a sub-list keyed by the event time
and `related-alarms` a sub-list keyed by the four alarm keys (with the raw,
un-normalized `specific_problem`). -/

/-- The key of an alarm list entry in the order the source passes it to
`exists` / `create` / `del`: `(device, type, managed_object, specific_problem)`,
the last one already normalized to a string by `or ''`. -/
abbrev AlarmKey := String × String × String × String

/-- The key of a `related-alarms` sub-list entry: the raw (un-normalized)
`specific_problem` is the fourth component, so it may be `None`. -/
abbrev RelatedAlarmKey := String × String × String × Option String

/-- One `status-change` history record (keyed by `event_time`); its two
payload leaves are written right after `status_change.create(...)`. -/
structure StatusChange where
  event_time : String
  perceived_severity : Nat
  alarm_text : String
deriving DecidableEq, Repr

/-- The fields of one alarm list entry as `submit_alarm` reads and writes
them.  `Option.none` models an unset leaf (read as Python `None`). -/
structure AlarmListEntry where
  is_cleared : Option Bool
  last_alarm_text : Option String
  last_perceived_severity : Option Nat
  last_status_change : Option String
  impacted_objects : Option (List String)
  root_cause_objects : Option (List String)
  related_alarms : List RelatedAlarmKey
  status_change : List StatusChange
deriving DecidableEq, Repr

/-- A freshly created entry: every leaf unset, both sub-lists empty. -/
def freshEntry : AlarmListEntry :=
  { is_cleared := none
    last_alarm_text := none
    last_perceived_severity := none
    last_status_change := none
    impacted_objects := none
    root_cause_objects := none
    related_alarms := []
    status_change := [] }

/-- The alarm list: an association list from keys to entries. -/
abbrev AlarmList := List (AlarmKey × AlarmListEntry)

/-- Keyed lookup in the alarm list (`alarm_list[key]` / the entry `create`
returns when the key already exists). -/
def alarmListLookup (store : AlarmList) (key : AlarmKey) :
    Option AlarmListEntry :=
  match store with
  | [] => none
  | (k, e) :: rest => if k = key then some e else alarmListLookup rest key

/-- `alarm_list.exists(key)`. -/
def alarmListExists (store : AlarmList) (key : AlarmKey) : Bool :=
  (alarmListLookup store key).isSome

/-- Committing the entry `e` under `key`: replaces the existing entry with
that key, or appends a new one.  This is `alarm_list.create(key)` followed by
the field writes, as observable after `t_write.apply()`. -/
def alarmListSet (store : AlarmList) (key : AlarmKey) (e : AlarmListEntry) :
    AlarmList :=
  match store with
  | [] => [(key, e)]
  | (k, e') :: rest =>
    if k = key then (k, e) :: rest else (k, e') :: alarmListSet rest key e

/-- Removal of the entry keyed `key`: keeps every entry with a different
key.  The maagic list is keyed, so it holds at most one entry per key and
this is exactly what `del alarm_list[key]` removes. -/
def alarmListRemove (store : AlarmList) (key : AlarmKey) : AlarmList :=
  match store with
  | [] => []
  | (k, e) :: rest =>
    if k = key then alarmListRemove rest key
    else (k, e) :: alarmListRemove rest key

/-- `del alarm_list[key]`: removes the entry, or raises `KeyError` when no
entry has that key. -/
def alarmListDel (store : AlarmList) (key : AlarmKey) :
    Except String AlarmList :=
  if alarmListExists store key then
    Except.ok (alarmListRemove store key)
  else
    Except.error "KeyError"

/-- `al.related_alarms.create(ra.device, ra.type, ra.managed_object,
ra.specific_problem)`: keyed create on the sub-list — a no-op when the key is
already present, otherwise it appends the key.  Note the fourth key is the
raw `specific_problem`, not normalized by `or ''`. -/
def relatedAlarmsCreate (acc : List RelatedAlarmKey) (ra : AlarmId) :
    List RelatedAlarmKey :=
  let k : RelatedAlarmKey :=
    (ra.device, ra.type, ra.managed_object, ra.specific_problem)
  if acc.contains k then acc else acc ++ [k]

/-- `sc = al.status_change.create(alarm.timestamp)` followed by
`sc.perceived_severity = sev; sc.alarm_text = txt`: keyed create on the
history sub-list (append when the time is new, reuse the existing record
otherwise), then overwrite that record's two payload leaves. -/
def statusChangeWrite (hist : List StatusChange) (time : String) (sev : Nat)
    (txt : String) : List StatusChange :=
  let hist' :=
    if hist.any (fun sc => sc.event_time == time) then hist
    else hist ++ [{ event_time := time, perceived_severity := sev,
                    alarm_text := txt }]
  hist'.map (fun sc =>
    if sc.event_time == time then
      { event_time := time, perceived_severity := sev, alarm_text := txt }
    else sc)

/-- The key under which `submit_alarm` and `purge_alarm` address the alarm:
`(alarm.device, alarm.type, alarm.managed_object,
alarm.specific_problem or '')`. -/
def Alarm.listKey (alarm : Alarm) : AlarmKey :=
  (alarm.device, alarm.type, alarm.managed_object,
   pyOrEmpty alarm.specific_problem)

/-- The same key computed from an `AlarmId` (used by `purge_alarm`). -/
def AlarmId.listKey (alarm_id : AlarmId) : AlarmKey :=
  (alarm_id.device, alarm_id.type, alarm_id.managed_object,
   pyOrEmpty alarm_id.specific_problem)

/-- Lines 203-207 of the source, the no-change guard:

    if al.is_cleared == alarm.cleared \
       and (alarm.cleared is True or
            (al.last_perceived_severity.value == alarm.ncs_severity and
             al.last_alarm_text == alarm.alarm_text)):
        return

with Python short-circuit evaluation.  Reading `.value` on an unset
`last_perceived_severity` leaf (Python `None`) raises `AttributeError`,
modelled as `Except.error`; that read is only reached when
`al.is_cleared == alarm.cleared` holds and `alarm.cleared` is `False`. -/
def noChangeGuard (al : AlarmListEntry) (alarm : Alarm) :
    Except String Bool :=
  if pyEqOptBool al.is_cleared alarm.cleared then
    if alarm.cleared then Except.ok true
    else
      match al.last_perceived_severity with
      | none => Except.error "AttributeError"
      | some lps =>
        Except.ok (lps == alarm.ncs_severity
          && pyEqOptStr al.last_alarm_text alarm.alarm_text)
  else
    Except.ok false

/-- Lines 209-225 of the source: the field writes applied to the (fresh or
existing) entry `al` on the update path.

    al.is_cleared = alarm.cleared
    al.last_alarm_text = alarm.alarm_text
    if alarm.ncs_severity != PerceivedSeverity.CLEARED:
        al.last_perceived_severity = alarm.ncs_severity
    al.last_status_change = alarm.timestamp
    al.impacted_objects = alarm.impacted_objects
    al.root_cause_objects = alarm.root_cause_objects
    if alarm.related_alarms:
        for ra in alarm.related_alarms: al.related_alarms.create(...)
    sc = al.status_change.create(alarm.timestamp)
    sc.perceived_severity = alarm.ncs_severity
    sc.alarm_text = alarm.alarm_text

The `!=` on the third line compares the `int` `alarm.ncs_severity` with the
enum member `PerceivedSeverity.CLEARED` (see `pyEq`). -/
def applyWrites (al : AlarmListEntry) (alarm : Alarm) : AlarmListEntry :=
  let al1 := { al with is_cleared := some alarm.cleared,
                       last_alarm_text := some alarm.alarm_text }
  let al2 :=
    if !pyEq (PyVal.int alarm.ncs_severity)
        (PyVal.enumMember PerceivedSeverity.CLEARED) then
      { al1 with last_perceived_severity := some alarm.ncs_severity }
    else al1
  let al3 := { al2 with last_status_change := some alarm.timestamp,
                        impacted_objects := alarm.impacted_objects,
                        root_cause_objects := alarm.root_cause_objects }
  let al4 :=
    if pyTruthyList alarm.related_alarms then
      { al3 with related_alarms :=
          ((alarm.related_alarms.getD []).foldl relatedAlarmsCreate
            al3.related_alarms) }
    else al3
  { al4 with status_change :=
      (statusChangeWrite al4.status_change alarm.timestamp alarm.ncs_severity
        alarm.alarm_text) }

/-- `AlarmSink.submit_alarm`: the committed store after the call.  The two
early `return` statements exit the `with` block before `t_write.apply()`, so
the transaction is discarded and the store is unchanged; the write path
commits the entry produced by `applyWrites` (creating it when absent).
An uncaught Python exception (the `AttributeError` of `noChangeGuard`)
also aborts the transaction, modelled as `Except.error`. -/
def submit_alarm (store : AlarmList) (alarm : Alarm) :
    Except String AlarmList :=
  let key := alarm.listKey
  -- lines 183-186: cleared alarm with no existing entry is not created
  if alarm.cleared == true && !alarmListExists store key then
    Except.ok store
  else
    -- line 189: create returns the existing entry or a fresh one
    let al := (alarmListLookup store key).getD freshEntry
    match noChangeGuard al alarm with
    | Except.error e => Except.error e
    | Except.ok true => Except.ok store
    | Except.ok false =>
      Except.ok (alarmListSet store key (applyWrites al alarm))

/-- `AlarmSink.purge_alarm`: `del alarm_list[key]` then `t_write.apply()`
inside a `try`, with `except KeyError: pass` — a raising `del` skips the
`apply`, so the store is unchanged and no error escapes. -/
def purge_alarm (store : AlarmList) (alarm_id : AlarmId) : AlarmList :=
  match alarmListDel store alarm_id.listKey with
  | Except.ok store' => store'
  | Except.error _ => store

/-! ## Helper lemmas -/

/-- Python `int == EnumMember` is always `False` (default `Enum.__eq__`
compares by identity and an `int` is never an enum member). -/
theorem pyEq_int_enumMember (n : Nat) (c : PerceivedSeverity) :
    pyEq (PyVal.int n) (PyVal.enumMember c) = false := rfl

theorem alarmListLookup_set_self (store : AlarmList) (key : AlarmKey)
    (e : AlarmListEntry) :
    alarmListLookup (alarmListSet store key e) key = some e := by
  induction store with
  | nil => simp [alarmListSet, alarmListLookup]
  | cons kv rest ih =>
    obtain ⟨k, e'⟩ := kv
    by_cases h : k = key
    · simp [alarmListSet, alarmListLookup, h]
    · simp [alarmListSet, alarmListLookup, h, ih]

theorem alarmListLookup_remove_self (store : AlarmList) (key : AlarmKey) :
    alarmListLookup (alarmListRemove store key) key = none := by
  induction store with
  | nil => simp [alarmListRemove, alarmListLookup]
  | cons kv rest ih =>
    obtain ⟨k, e⟩ := kv
    by_cases h : k = key
    · simpa [alarmListRemove, h] using ih
    · simp [alarmListRemove, alarmListLookup, h, ih]

/-- The no-change guard evaluates to `true` (submission suppressed) when the
clear state matches and either the record is cleared or severity code and
text both match the stored values. -/
theorem noChangeGuard_eq_true (al : AlarmListEntry) (alarm : Alarm)
    (h1 : al.is_cleared = some alarm.cleared)
    (h2 : alarm.cleared = true ∨
      (al.last_perceived_severity = some alarm.ncs_severity ∧
       al.last_alarm_text = some alarm.alarm_text)) :
    noChangeGuard al alarm = Except.ok true := by
  rcases h2 with h2 | ⟨h3, h4⟩
  · simp [noChangeGuard, h1, h2, pyEqOptBool]
  · by_cases hc : alarm.cleared
    · simp [noChangeGuard, h1, hc, pyEqOptBool]
    · simp [noChangeGuard, h1, hc, h3, h4, pyEqOptBool, pyEqOptStr]

/-- The no-change guard evaluates to `false` (update goes ahead) as soon as
the stored clear flag does not equal the record's `cleared`. -/
theorem noChangeGuard_eq_false (al : AlarmListEntry) (alarm : Alarm)
    (h : pyEqOptBool al.is_cleared alarm.cleared = false) :
    noChangeGuard al alarm = Except.ok false := by
  simp [noChangeGuard, h]

/-- `submit_alarm` on an existing entry whose guard says "no change" returns
the store unchanged (the early `return` skips `t_write.apply()`). -/
theorem submit_alarm_noop_of_guard (store : AlarmList) (alarm : Alarm)
    (al : AlarmListEntry)
    (h1 : alarmListLookup store alarm.listKey = some al)
    (hg : noChangeGuard al alarm = Except.ok true) :
    submit_alarm store alarm = Except.ok store := by
  simp [submit_alarm, alarmListExists, h1, hg]

/-- `submit_alarm` on an existing entry whose guard says "changed" commits
exactly the entry produced by `applyWrites`. -/
theorem submit_alarm_update_of_guard (store : AlarmList) (alarm : Alarm)
    (al : AlarmListEntry)
    (h1 : alarmListLookup store alarm.listKey = some al)
    (hg : noChangeGuard al alarm = Except.ok false) :
    submit_alarm store alarm =
      Except.ok (alarmListSet store alarm.listKey (applyWrites al alarm)) := by
  simp [submit_alarm, alarmListExists, h1, hg]

theorem applyWrites_is_cleared (al : AlarmListEntry) (alarm : Alarm) :
    (applyWrites al alarm).is_cleared = some alarm.cleared := by
  unfold applyWrites
  split <;> split <;> rfl

/-- `last_perceived_severity` is written by every update: the guard
`alarm.ncs_severity != PerceivedSeverity.CLEARED` compares an `int` with an
enum member, which is always unequal in Python. -/
theorem applyWrites_last_perceived_severity (al : AlarmListEntry)
    (alarm : Alarm) :
    (applyWrites al alarm).last_perceived_severity =
      some alarm.ncs_severity := by
  unfold applyWrites
  simp only [pyEq_int_enumMember, Bool.not_false, if_true]
  split <;> rfl

theorem applyWrites_last_alarm_text (al : AlarmListEntry) (alarm : Alarm) :
    (applyWrites al alarm).last_alarm_text = some alarm.alarm_text := by
  unfold applyWrites
  split <;> split <;> rfl

theorem applyWrites_last_status_change (al : AlarmListEntry) (alarm : Alarm) :
    (applyWrites al alarm).last_status_change = some alarm.timestamp := by
  unfold applyWrites
  split <;> split <;> rfl

theorem applyWrites_status_change (al : AlarmListEntry) (alarm : Alarm) :
    (applyWrites al alarm).status_change =
      statusChangeWrite al.status_change alarm.timestamp alarm.ncs_severity
        alarm.alarm_text := by
  unfold applyWrites
  split <;> split <;> rfl

theorem applyWrites_related_alarms_single (al : AlarmListEntry)
    (alarm : Alarm) (ra : AlarmId)
    (h : alarm.related_alarms = some [ra]) :
    (applyWrites al alarm).related_alarms =
      relatedAlarmsCreate al.related_alarms ra := by
  unfold applyWrites
  simp only [h, pyTruthyList, List.isEmpty_cons, Bool.not_false, if_true,
    Option.getD_some, List.foldl_cons, List.foldl_nil]
  split <;> rfl

/-- Rewriting history records whose time is not `time` changes nothing. -/
theorem statusChange_map_untouched (hist : List StatusChange) (time : String)
    (new : StatusChange)
    (h : ∀ sc ∈ hist, sc.event_time ≠ time) :
    (hist.map fun sc => if sc.event_time == time then new else sc) = hist := by
  induction hist with
  | nil => rfl
  | cons a rest ih =>
    have ha : ¬((a.event_time == time) = true) := by
      simp [h a (List.mem_cons_self a rest)]
    rw [List.map_cons, if_neg ha,
      ih fun sc hsc => h sc (List.mem_cons_of_mem a hsc)]

/-- When the record's time is not yet a history key, `status_change.create`
appends one new history record and leaves the others untouched. -/
theorem statusChangeWrite_fresh (hist : List StatusChange) (time : String)
    (sev : Nat) (txt : String)
    (h : ∀ sc ∈ hist, sc.event_time ≠ time) :
    statusChangeWrite hist time sev txt =
      hist ++ [{ event_time := time, perceived_severity := sev,
                 alarm_text := txt }] := by
  have hany : (hist.any fun sc => sc.event_time == time) = false := by
    rw [List.any_eq_false]
    intro sc hsc
    simp [h sc hsc]
  unfold statusChangeWrite
  rw [hany]
  simp only [Bool.false_eq_true, if_false, List.map_append, List.map_cons,
    List.map_nil, beq_self_eq_true, if_true]
  rw [statusChange_map_untouched hist time _ h]

/-! ## Concrete fixtures (the module docstring's example flow) -/

/-- The example identity of the module docstring: device `c0`,
`connection-failure`, `specific_problem=None`. -/
def exampleId : AlarmId :=
  { device := "c0"
    managed_object := "/devices/device"
    type := "connection-failure"
    specific_problem := none }

/-- A raise record: severity `MINOR`, text `"link down"`, timestamp `"t1"`. -/
def exampleRaise : Alarm :=
  Alarm.init exampleId PerceivedSeverity.MINOR "link down" (some "t1") "t1"
    none none none

/-- The store entry after `exampleRaise` was submitted: not cleared,
`last_perceived_severity` is the MINOR code 3, one history record. -/
def exampleEntry : AlarmListEntry :=
  { is_cleared := some false
    last_alarm_text := some "link down"
    last_perceived_severity := some 3
    last_status_change := some "t1"
    impacted_objects := none
    root_cause_objects := none
    related_alarms := []
    status_change :=
      [{ event_time := "t1", perceived_severity := 3,
         alarm_text := "link down" }] }

/-- A store holding exactly the entry raised by `exampleRaise`. -/
def exampleStore : AlarmList := [(exampleRaise.listKey, exampleEntry)]

/-- A clearing record for the same identity (timestamp `"t2"`), built the way
the module docstring shows: construct, then set `cleared = True`. -/
def exampleClear : Alarm :=
  (Alarm.init exampleId PerceivedSeverity.MINOR "link down" (some "t2") "t2"
    none none none).setCleared true

/-- The store committed by the first submission of `exampleRaise` into an
empty alarm list. -/
def exampleStore1 : AlarmList :=
  [(exampleRaise.listKey, applyWrites freshEntry exampleRaise)]

/-- The entry after `exampleClear` was applied on top of `exampleEntry`. -/
def exampleClearedEntry : AlarmListEntry := applyWrites exampleEntry exampleClear

/-- A store holding the cleared entry. -/
def exampleStoreCleared : AlarmList :=
  [(exampleClear.listKey, exampleClearedEntry)]

/-! ## The claims -/

/-- **C1**: the claim says a cleared submission leaves the stored
`last_perceived_severity` unchanged because the severity field is written
only when the effective severity code is not the CLEARED sentinel.  The code
violates this: the guard `alarm.ncs_severity != PerceivedSeverity.CLEARED`
compares the `int` 1 with the enum member, which is always unequal in Python,
so the write always happens.  Submitting `exampleClear` to an entry whose
last severity is the MINOR code 3 overwrites it with the CLEARED code 1. -/
theorem C1_clear_overwrites_last_severity :
    exampleEntry.last_perceived_severity = some 3 ∧
    submit_alarm exampleStore exampleClear =
      Except.ok [(exampleClear.listKey, applyWrites exampleEntry exampleClear)] ∧
    (applyWrites exampleEntry exampleClear).last_perceived_severity = some 1 :=
  ⟨rfl, rfl, rfl⟩

/-- **C2 counterexample**: constructing an `Alarm` with
`severity == PerceivedSeverity.CLEARED` does not fail — `Alarm.__init__`
assigns `self._severity` directly, bypassing the validating property setter —
and the resulting record has severity CLEARED (and reads as cleared). -/
theorem C2_counterexample_ctor_accepts_CLEARED :
    (Alarm.init exampleId PerceivedSeverity.CLEARED "this is not a test!"
      (some "t0") "t0" none none none).severity = PerceivedSeverity.CLEARED ∧
    (Alarm.init exampleId PerceivedSeverity.CLEARED "this is not a test!"
      (some "t0") "t0" none none none).cleared = true :=
  ⟨rfl, rfl⟩

/-- **C2 amended**: the constructor performs no severity validation: it
stores whatever severity it is passed (so a record with severity CLEARED can
be produced directly); only the `severity` property setter rejects CLEARED. -/
theorem C2_ctor_stores_severity_unvalidated (alarm_id : AlarmId)
    (sev : PerceivedSeverity) (text : String) (ts : Option String)
    (now : String) (io ro : Option (List String))
    (ra : Option (List AlarmId)) :
    (Alarm.init alarm_id sev text ts now io ra ro).severity = sev ∧
    (Alarm.init alarm_id PerceivedSeverity.CLEARED text ts now io ra
      ro).cleared = true :=
  ⟨rfl, rfl⟩

/-- A 1025-character string, used to exercise the truncation cap. -/
def longText : String := String.mk (List.replicate 1025 'a')

set_option maxRecDepth 8192

/-- **C3 counterexample**: a 1025-character text passed to the constructor is
stored unchanged (length 1025, not 1024) — `Alarm.__init__` assigns
`self._alarm_text` directly, bypassing the truncating property setter. -/
theorem C3_counterexample_ctor_no_truncation :
    (Alarm.init exampleId PerceivedSeverity.MINOR longText (some "t0") "t0"
      none none none).alarm_text.length = 1025 ∧ (1025 : Nat) ≠ 1024 :=
  ⟨rfl, by decide⟩

/-- **C3 amended**: only assignment through the `alarm_text` property setter
truncates: a string longer than 1024 characters is stored as exactly 1024
characters ending with the truncation marker, and a string of at most 1024
characters is stored unchanged; the constructor stores the text unchanged
whatever its length. -/
theorem C3_truncation_only_in_setter (a : Alarm) (v : String)
    (alarm_id : AlarmId) (sev : PerceivedSeverity) (ts : Option String)
    (now : String) (io ro : Option (List String))
    (ra : Option (List AlarmId)) :
    (v.length > 1024 →
      (a.setAlarmText v).alarm_text.length = 1024 ∧
      ∃ p : String, (a.setAlarmText v).alarm_text = p ++ truncationMarker) ∧
    (v.length ≤ 1024 → (a.setAlarmText v).alarm_text = v) ∧
    (Alarm.init alarm_id sev v ts now io ra ro).alarm_text = v := by
  refine ⟨?_, ?_, rfl⟩
  · intro h
    have hval : (a.setAlarmText v).alarm_text =
        String.mk (v.toList.take (1024 - truncationMarker.length))
          ++ truncationMarker := by
      simp only [Alarm.setAlarmText, Alarm.alarm_text]
      rw [if_pos h]
    refine ⟨?_, String.mk (v.toList.take (1024 - truncationMarker.length)),
      hval⟩
    rw [hval, String.length_append]
    have hm : truncationMarker.length = 15 := rfl
    have hmk : (String.mk (v.toList.take (1024 - truncationMarker.length))).length
        = (v.toList.take (1024 - truncationMarker.length)).length := rfl
    have hv : v.toList.length = v.length := rfl
    rw [hmk, List.length_take, hm, hv]
    omega
  · intro h
    have hle : ¬(v.length > 1024) := by omega
    simp only [Alarm.setAlarmText, Alarm.alarm_text]
    rw [if_neg hle]

/-- Witness for C3 (amended): assigning the 1025-character text through the
setter stores 1024 characters ending in the marker; assigning a short text
stores it unchanged. -/
theorem C3_witness :
    ((exampleRaise.setAlarmText longText).alarm_text.length = 1024 ∧
      ∃ p : String, (exampleRaise.setAlarmText longText).alarm_text =
        p ++ truncationMarker) ∧
    (exampleRaise.setAlarmText "link down").alarm_text = "link down" :=
  ⟨(C3_truncation_only_in_setter exampleRaise longText exampleId
      PerceivedSeverity.MINOR (some "t0") "t0" none none none).1 (by decide),
   (C3_truncation_only_in_setter exampleRaise "link down" exampleId
      PerceivedSeverity.MINOR (some "t0") "t0" none none none).2.1
      (by decide)⟩

/-- **C4**: submitting a record with `cleared == true` whose identity has no
entry in the alarm list is a no-op: `submit_alarm` returns normally and the
store is unchanged (no entry is created, nothing is written). -/
theorem C4_clear_without_entry_is_noop (store : AlarmList) (alarm : Alarm)
    (h1 : alarm.cleared = true)
    (h2 : alarmListLookup store alarm.listKey = none) :
    submit_alarm store alarm = Except.ok store := by
  simp [submit_alarm, alarmListExists, h1, h2]

/-- Witness for C4: clearing the never-raised example identity on an empty
alarm list returns the empty list unchanged. -/
theorem C4_witness : submit_alarm [] exampleClear = Except.ok [] :=
  C4_clear_without_entry_is_noop [] exampleClear rfl rfl

/-- **C5**: (i) when the existing entry's clear flag equals the record's and
either the record is cleared or the stored severity code and text equal the
record's, `submit_alarm` leaves the store unchanged (no field writes, no
history record); (ii) submitting the same record twice in a row leaves the
store in the same state as submitting it once. -/
theorem C5_redundant_submission_is_noop (store store' : AlarmList)
    (alarm : Alarm) (al : AlarmListEntry) :
    (alarmListLookup store alarm.listKey = some al →
      al.is_cleared = some alarm.cleared →
      (alarm.cleared = true ∨
        (al.last_perceived_severity = some alarm.ncs_severity ∧
         al.last_alarm_text = some alarm.alarm_text)) →
      submit_alarm store alarm = Except.ok store) ∧
    (submit_alarm store alarm = Except.ok store' →
      submit_alarm store' alarm = Except.ok store') := by
  constructor
  · intro h1 h2 h3
    exact submit_alarm_noop_of_guard store alarm al h1
      (noChangeGuard_eq_true al alarm h2 h3)
  · intro hsub
    by_cases hc1 : (alarm.cleared == true
        && !alarmListExists store alarm.listKey) = true
    · have h0 : submit_alarm store alarm = Except.ok store := by
        unfold submit_alarm
        dsimp only
        rw [hc1]
        rfl
      rw [h0] at hsub
      injection hsub with h'
      subst h'
      exact h0
    · have hc1' : (alarm.cleared == true
          && !alarmListExists store alarm.listKey) = false := by
        simpa using hc1
      cases hg : noChangeGuard
          ((alarmListLookup store alarm.listKey).getD freshEntry) alarm with
      | error e =>
        have h0 : submit_alarm store alarm = Except.error e := by
          unfold submit_alarm
          dsimp only
          rw [hc1', hg]
          rfl
        rw [h0] at hsub
        simp at hsub
      | ok b =>
        cases b with
        | true =>
          have h0 : submit_alarm store alarm = Except.ok store := by
            unfold submit_alarm
            dsimp only
            rw [hc1', hg]
            rfl
          rw [h0] at hsub
          injection hsub with h'
          subst h'
          exact h0
        | false =>
          have h0 : submit_alarm store alarm = Except.ok
              (alarmListSet store alarm.listKey
                (applyWrites
                  ((alarmListLookup store alarm.listKey).getD freshEntry)
                  alarm)) := by
            unfold submit_alarm
            dsimp only
            rw [hc1', hg]
            rfl
          rw [h0] at hsub
          injection hsub with h'
          subst h'
          apply submit_alarm_noop_of_guard _ alarm
            (applyWrites ((alarmListLookup store alarm.listKey).getD freshEntry)
              alarm)
            (alarmListLookup_set_self store alarm.listKey _)
          exact noChangeGuard_eq_true _ alarm (applyWrites_is_cleared _ _)
            (Or.inr ⟨applyWrites_last_perceived_severity _ _,
              applyWrites_last_alarm_text _ _⟩)

/-- Witness for C5: resubmitting the already-stored example raise is a no-op,
and the second of two identical submissions into an empty list returns the
once-submitted store unchanged. -/
theorem C5_witness :
    submit_alarm exampleStore exampleRaise = Except.ok exampleStore ∧
    submit_alarm exampleStore1 exampleRaise = Except.ok exampleStore1 :=
  ⟨(C5_redundant_submission_is_noop exampleStore exampleStore exampleRaise
      exampleEntry).1 rfl rfl (Or.inr ⟨rfl, rfl⟩),
   (C5_redundant_submission_is_noop [] exampleStore1 exampleRaise
      exampleEntry).2 rfl⟩

/-- **C6**: an entry with `is_cleared == true` receiving a record with
`cleared == false` is always updated — every status field is written and one
history record is appended — even when the record's text and severity code
equal the stored `last_alarm_text` and `last_perceived_severity` (the
quantification puts no constraint on them); the transition out of cleared is
never suppressed as a no-op.  The history-append clause assumes the record's
timestamp is not already a history key (the history sub-list is keyed by
event time). -/
theorem C6_uncleared_transition_always_updates (store : AlarmList)
    (alarm : Alarm) (al : AlarmListEntry)
    (h1 : alarmListLookup store alarm.listKey = some al)
    (h2 : al.is_cleared = some true)
    (h3 : alarm.cleared = false)
    (h4 : ∀ sc ∈ al.status_change, sc.event_time ≠ alarm.timestamp) :
    submit_alarm store alarm =
      Except.ok (alarmListSet store alarm.listKey (applyWrites al alarm)) ∧
    (applyWrites al alarm).is_cleared = some false ∧
    (applyWrites al alarm).last_alarm_text = some alarm.alarm_text ∧
    (applyWrites al alarm).last_perceived_severity = some alarm.ncs_severity ∧
    (applyWrites al alarm).last_status_change = some alarm.timestamp ∧
    (applyWrites al alarm).status_change = al.status_change ++
      [{ event_time := alarm.timestamp,
         perceived_severity := alarm.ncs_severity,
         alarm_text := alarm.alarm_text }] := by
  have hguard : noChangeGuard al alarm = Except.ok false := by
    apply noChangeGuard_eq_false
    rw [h2, h3]
    rfl
  refine ⟨submit_alarm_update_of_guard store alarm al h1 hguard, ?_,
    applyWrites_last_alarm_text al alarm,
    applyWrites_last_perceived_severity al alarm,
    applyWrites_last_status_change al alarm, ?_⟩
  · rw [applyWrites_is_cleared, h3]
  · rw [applyWrites_status_change, statusChangeWrite_fresh _ _ _ _ h4]

/-- A re-raise of the example alarm after it was cleared: same text and
severity as before the clear, new timestamp `"t3"`. -/
def exampleReRaise : Alarm :=
  Alarm.init exampleId PerceivedSeverity.MINOR "link down" (some "t3") "t3"
    none none none

/-- Witness for C6: re-raising the cleared example entry with the identical
pre-clear text and severity still commits an update and appends a history
record. -/
theorem C6_witness :
    submit_alarm exampleStoreCleared exampleReRaise =
      Except.ok (alarmListSet exampleStoreCleared exampleReRaise.listKey
        (applyWrites exampleClearedEntry exampleReRaise)) ∧
    (applyWrites exampleClearedEntry exampleReRaise).is_cleared = some false ∧
    (applyWrites exampleClearedEntry exampleReRaise).last_alarm_text =
      some exampleReRaise.alarm_text ∧
    (applyWrites exampleClearedEntry exampleReRaise).last_perceived_severity =
      some exampleReRaise.ncs_severity ∧
    (applyWrites exampleClearedEntry exampleReRaise).last_status_change =
      some exampleReRaise.timestamp ∧
    (applyWrites exampleClearedEntry exampleReRaise).status_change =
      exampleClearedEntry.status_change ++
      [{ event_time := exampleReRaise.timestamp,
         perceived_severity := exampleReRaise.ncs_severity,
         alarm_text := exampleReRaise.alarm_text }] :=
  C6_uncleared_transition_always_updates exampleStoreCleared exampleReRaise
    exampleClearedEntry rfl rfl rfl (by decide)

/-- **C7**: `purge_alarm` never raises and leaves the store unchanged when no
matching entry exists (the transaction is not applied), and looking the
identity up after a purge always yields absent. -/
theorem C7_purge_is_idempotent_delete (store : AlarmList)
    (alarm_id : AlarmId) :
    (alarmListLookup store alarm_id.listKey = none →
      purge_alarm store alarm_id = store) ∧
    alarmListLookup (purge_alarm store alarm_id) alarm_id.listKey = none := by
  constructor
  · intro h
    have hex : alarmListExists store alarm_id.listKey = false := by
      simp [alarmListExists, h]
    simp [purge_alarm, alarmListDel, hex]
  · cases hl : alarmListLookup store alarm_id.listKey with
    | some e =>
      have hex : alarmListExists store alarm_id.listKey = true := by
        simp [alarmListExists, hl]
      simp [purge_alarm, alarmListDel, hex, alarmListLookup_remove_self]
    | none =>
      have hex : alarmListExists store alarm_id.listKey = false := by
        simp [alarmListExists, hl]
      simp [purge_alarm, alarmListDel, hex, hl]

/-- Witness for C7: purging the example identity from an empty list returns
it unchanged, and purging it from a store that holds the entry leaves no
entry behind. -/
theorem C7_witness :
    purge_alarm [] exampleId = [] ∧
    alarmListLookup (purge_alarm exampleStore exampleId) exampleId.listKey =
      none :=
  ⟨(C7_purge_is_idempotent_delete [] exampleId).1 rfl,
   (C7_purge_is_idempotent_delete exampleStore exampleId).2⟩

/-- **C8**: assigning `PerceivedSeverity.CLEARED` through the `severity`
property setter raises `ValueError` (no updated record is produced, so the
severity is unchanged); assigning any other severity succeeds; a successful
assignment never yields CLEARED; and the `cleared`-flag path does reach
CLEARED. -/
theorem C8_severity_setter_rejects_CLEARED (a : Alarm)
    (v : PerceivedSeverity) :
    (v = PerceivedSeverity.CLEARED →
      a.setSeverity v = Except.error
        "ValueError: Use Alarm.cleared property to clear the alarm") ∧
    (v ≠ PerceivedSeverity.CLEARED →
      a.setSeverity v = Except.ok { a with _severity := v }) ∧
    (∀ a', a.setSeverity v = Except.ok a' →
      a'.severity = v ∧ v ≠ PerceivedSeverity.CLEARED) ∧
    (a.setCleared true).severity = PerceivedSeverity.CLEARED := by
  refine ⟨?_, ?_, ?_, rfl⟩
  · intro h
    simp [Alarm.setSeverity, h]
  · intro h
    simp [Alarm.setSeverity, h]
  · intro a' h
    by_cases hv : v = PerceivedSeverity.CLEARED
    · simp [Alarm.setSeverity, hv] at h
    · simp [Alarm.setSeverity, hv] at h
      refine ⟨?_, hv⟩
      rw [← h]
      rfl

/-- Witness for C8: on the example raise record, assigning CLEARED errors and
assigning MAJOR succeeds. -/
theorem C8_witness :
    exampleRaise.setSeverity PerceivedSeverity.CLEARED = Except.error
      "ValueError: Use Alarm.cleared property to clear the alarm" ∧
    exampleRaise.setSeverity PerceivedSeverity.MAJOR =
      Except.ok { exampleRaise with _severity := PerceivedSeverity.MAJOR } :=
  ⟨(C8_severity_setter_rejects_CLEARED exampleRaise
      PerceivedSeverity.CLEARED).1 rfl,
   (C8_severity_setter_rejects_CLEARED exampleRaise
      PerceivedSeverity.MAJOR).2.1 (by decide)⟩

/-- **C9**: when the stored entry has `is_cleared == true` and the record is
also cleared, `submit_alarm` is a no-op whatever the record's text: the guard
short-circuits on `alarm.cleared` without comparing text, so the stored
`last_alarm_text` and history cannot change while the entry stays cleared. -/
theorem C9_cleared_on_cleared_is_noop (store : AlarmList) (alarm : Alarm)
    (al : AlarmListEntry)
    (h1 : alarmListLookup store alarm.listKey = some al)
    (h2 : al.is_cleared = some true)
    (h3 : alarm.cleared = true) :
    submit_alarm store alarm = Except.ok store := by
  apply submit_alarm_noop_of_guard store alarm al h1
  exact noChangeGuard_eq_true al alarm (by rw [h2, h3]) (Or.inl h3)

/-- A second clear of the example identity carrying a different text. -/
def exampleClear2 : Alarm :=
  (Alarm.init exampleId PerceivedSeverity.MINOR "a wholly different text"
    (some "t4") "t4" none none none).setCleared true

/-- Witness for C9: re-clearing the already-cleared example entry with a
different alarm text leaves the store untouched. -/
theorem C9_witness :
    submit_alarm exampleStoreCleared exampleClear2 =
      Except.ok exampleStoreCleared :=
  C9_cleared_on_cleared_is_noop exampleStoreCleared exampleClear2
    exampleClearedEntry rfl rfl rfl

/-- **C10**: the `or ''` normalization of `specific_problem` is applied only
to the submitted alarm's own list key; each related `AlarmId` is created
under its raw `specific_problem`, so a related id with absent
`specific_problem` (`None`) is keyed differently (`None`) from the slot the
same id would occupy as a submitted alarm (`''`). -/
theorem C10_related_alarm_keyed_raw (store : AlarmList) (alarm : Alarm)
    (al : AlarmListEntry) (ra : AlarmId)
    (h1 : alarmListLookup store alarm.listKey = some al)
    (h2 : al.is_cleared = some true)
    (h3 : alarm.cleared = false)
    (h4 : alarm.related_alarms = some [ra])
    (h5 : ra.specific_problem = none) :
    (∃ e, submit_alarm store alarm =
        Except.ok (alarmListSet store alarm.listKey e) ∧
      (ra.device, ra.type, ra.managed_object, ra.specific_problem) ∈
        e.related_alarms) ∧
    alarm.listKey = (alarm.device, alarm.type, alarm.managed_object,
      pyOrEmpty alarm.specific_problem) ∧
    ra.listKey.2.2.2 = "" ∧
    ra.specific_problem ≠ some ra.listKey.2.2.2 := by
  refine ⟨⟨applyWrites al alarm, ?_, ?_⟩, rfl, ?_, ?_⟩
  · apply submit_alarm_update_of_guard store alarm al h1
    apply noChangeGuard_eq_false
    rw [h2, h3]
    rfl
  · rw [applyWrites_related_alarms_single al alarm ra h4]
    unfold relatedAlarmsCreate
    dsimp only
    split
    · next hcont => exact List.mem_of_elem_eq_true hcont
    · simp
  · show pyOrEmpty ra.specific_problem = ""
    rw [h5]
    rfl
  · rw [h5]
    simp

/-- A related identity with absent `specific_problem`. -/
def exampleRelatedId : AlarmId :=
  { device := "c1"
    managed_object := "/devices/device-c1"
    type := "connection-failure"
    specific_problem := none }

/-- A re-raise of the cleared example entry that carries one related alarm. -/
def exampleReRaiseRelated : Alarm :=
  Alarm.init exampleId PerceivedSeverity.MAJOR "link down again" (some "t5")
    "t5" none (some [exampleRelatedId]) none

/-- Witness for C10: submitting the related-alarm-carrying record commits an
entry whose `related_alarms` sub-list holds the raw (`None`-keyed) related
identity, which differs from the `''`-keyed slot of the same identity. -/
theorem C10_witness :
    (∃ e, submit_alarm exampleStoreCleared exampleReRaiseRelated =
        Except.ok (alarmListSet exampleStoreCleared
          exampleReRaiseRelated.listKey e) ∧
      (exampleRelatedId.device, exampleRelatedId.type,
       exampleRelatedId.managed_object, exampleRelatedId.specific_problem) ∈
        e.related_alarms) ∧
    exampleReRaiseRelated.listKey = (exampleReRaiseRelated.device,
      exampleReRaiseRelated.type, exampleReRaiseRelated.managed_object,
      pyOrEmpty exampleReRaiseRelated.specific_problem) ∧
    exampleRelatedId.listKey.2.2.2 = "" ∧
    exampleRelatedId.specific_problem ≠ some exampleRelatedId.listKey.2.2.2 :=
  C10_related_alarm_keyed_raw exampleStoreCleared exampleReRaiseRelated
    exampleClearedEntry exampleRelatedId rfl rfl rfl rfl rfl

end AlarmSink
